import Mathlib

/-!
Verification development for the SerialBridge TouchDesigner parser
(src/examples/touchdesigner/parser_code.py).

The Python script reads rows of (device id, payload string) pairs from an
OSC table, keeps the last payload per raw device id, and turns each payload
into named numeric channels.  The shallow embedding below mirrors the code:

* JSON values are modelled by the inductive `Json`; JSON numbers are
  modelled by rationals (the code never computes with them, it only passes
  them through, so exactness is irrelevant).
* Python distinguishes three outcomes for one payload string: `json.loads`
  succeeds (lines 66-67), it fails but `float(data_str)` succeeds
  (lines 228-231), or both fail (lines 232-235).  `ParseOutcome` records
  which of the three happened together with the parsed value; the
  byte-level parsing itself (and the quote stripping of lines 51-52, which
  happens before parsing) is upstream of everything the claims are about.
* A Python `bool` satisfies `isinstance(value, (int, float))`, so wherever
  the code tests for numbers a `Json.bool` passes the test as well; the
  embedding keeps that behaviour.
* The channel buffer is a list of (name, assigned value) pairs in append
  order, mirroring the successive `scriptOp.appendChan` calls.
-/

namespace SerialBridge

/-- JSON values as produced by `json.loads`: numbers (int or float, modelled
as rationals), strings, booleans, null, arrays, and objects (key ordered
association lists, as Python dicts preserve insertion order). -/
inductive Json where
  | num (q : ℚ)
  | str (s : String)
  | bool (b : Bool)
  | null
  | arr (elems : List Json)
  | obj (entries : List (String × Json))

/-- One output channel: the name passed to `appendChan` together with the
value assigned to `chan[0]`. -/
abbrev Channel := String × Json

/-- Result of the decoding chain of `cook` for one payload string:
`json v` when `json.loads(data_str)` succeeds with value `v`;
`float q` when `json.loads` raises but `float(data_str)` parses `q`;
`raw` when the string is neither valid JSON nor float-parseable. -/
inductive ParseOutcome where
  | json (v : Json)
  | float (q : ℚ)
  | raw

/-- Line 63: `device_id.replace('"', '').replace(' ', '_')` -- remove every
double quote, then turn every space into an underscore. -/
def cleanId (s : String) : String :=
  ⟨(s.data.filter (fun c => c ≠ '"')).map (fun c => if c = ' ' then '_' else c)⟩

/-- Line 244: `new_key = f'{prefix}_{key}' if prefix else key`. -/
def newKey (pfx k : String) : String :=
  if pfx = "" then k else pfx ++ "_" ++ k

/-- Lines 250-254: the list branch of `flatten_json`.  `enumerate` counts
every element (also the skipped ones), and `isinstance(item, (int, float))`
accepts Python bools, so numeric and boolean elements produce a channel and
everything else is skipped. -/
def arrChannels (nk : String) : Nat → List Json → List Channel
  | _, [] => []
  | i, e :: rest =>
    (match e with
     | Json.num q => [(nk ++ "_" ++ toString i, Json.num q)]
     | Json.bool b => [(nk ++ "_" ++ toString i, Json.bool b)]
     | _ => []) ++ arrChannels nk (i + 1) rest

/-- Lines 242-254: the body of `flatten_json` on a dict, one entry at a
time.  Numbers and bools (which pass `isinstance(value, (int, float))`)
emit a channel, dicts recurse (the source recurses through `flatten_json`,
which immediately re-enters this loop), lists go through `arrChannels`,
strings and null fall off the `if/elif` chain and emit nothing. -/
def flattenEntries : List (String × Json) → String → List Channel
  | [], _ => []
  | (k, v) :: rest, pfx =>
    (match v with
     | Json.num q => [(newKey pfx k, Json.num q)]
     | Json.bool b => [(newKey pfx k, Json.bool b)]
     | Json.obj kvs => flattenEntries kvs (newKey pfx k)
     | Json.arr es => arrChannels (newKey pfx k) 0 es
     | Json.str _ => []
     | Json.null => []) ++ flattenEntries rest pfx

/-- Lines 238-254: `flatten_json(data, scriptOp, prefix)` -- only dict
input produces channels (line 242 guards with `isinstance(data, dict)`). -/
def flatten_json (v : Json) (pfx : String) : List Channel :=
  match v with
  | Json.obj kvs => flattenEntries kvs pfx
  | _ => []

/-- Line 71: `data_type = data.get('type', 'unknown')` followed by string
comparisons.  A missing `type` compares like the string `unknown`; a
non-string `type` value compares unequal to every branch label, which we
model as `none`. -/
def typeStr (kvs : List (String × Json)) : Option String :=
  match List.lookup "type" kvs with
  | none => some "unknown"
  | some (Json.str s) => some s
  | some _ => none

/-- Lines 80-82: the `for i, interval in enumerate(rr[:4])` loop. -/
def rrChans (cid : String) : Nat → List Json → List Channel
  | _, [] => []
  | i, e :: rest => (cid ++ "_rr_" ++ toString i, e) :: rrChans cid (i + 1) rest

/-- Lines 74-82: the `heart_rate` branch.  The `bpm` channel is always
appended with `data.get('bpm', 0)`; the rr channels are appended from
`rr[:4]` when `rr_intervals` is a non-empty list (`if rr:`).  An empty list
is falsy and skips the loop, which emits the same channels as running the
loop on the empty slice, so both are the `[]` case of `rrChans`.  (A truthy
non-list `rr_intervals` raises in the host and is outside the model.) -/
def hrChannels (cid : String) (kvs : List (String × Json)) : List Channel :=
  (cid ++ "_bpm", (List.lookup "bpm" kvs).getD (Json.num 0)) ::
    (match List.lookup "rr_intervals" kvs with
     | some (Json.arr es) => rrChans cid 0 (es.take 4)
     | _ => [])

/-- Lines 85-106: the `eeg`, `ppg`, `accel`/`accelerometer` and `gyro`
branches all iterate `data.get('data', {}).items()` and append
`f'{clean_id}{mid}{name}'` with the raw value; `mid` is the branch label
with surrounding underscores.  (A non-dict `data` value raises in the host
and is outside the model.) -/
def dataChannels (cid mid : String) (kvs : List (String × Json)) : List Channel :=
  match (List.lookup "data" kvs).getD (Json.obj []) with
  | Json.obj dkvs => dkvs.map (fun kv => (cid ++ mid ++ kv.1, kv.2))
  | _ => []

/-- Lines 109-215: the fixed catalogue of `phone_sensors` fields, in the
order the source tests them. -/
def phoneKeys : List String :=
  ["accel_x", "accel_y", "accel_z",
   "gyro_x", "gyro_y", "gyro_z",
   "mag_x", "mag_y", "mag_z",
   "pitch", "roll", "yaw",
   "pressure", "altitude",
   "latitude", "longitude", "speed", "heading",
   "audio_level",
   "gravity_x", "gravity_y", "gravity_z",
   "user_accel_x", "user_accel_y", "user_accel_z",
   "quat_x", "quat_y", "quat_z", "quat_w"]

/-- One block of the `phone_sensors` branch:
`if data.get(k) is not None: chan = appendChan(f'{clean_id}_{k}');
chan[0] = data.get(k, 0)`.  A missing key or a JSON null gives Python
`None` and emits nothing; otherwise the present value is emitted. -/
def phoneEmit (cid : String) (kvs : List (String × Json)) (k : String) : List Channel :=
  match List.lookup k kvs with
  | some Json.null => []
  | some v => [(cid ++ "_" ++ k, v)]
  | none => []

/-- Lines 109-215: the whole `phone_sensors` branch is the same block
repeated once per catalogue key, in catalogue order. -/
def phoneChannels (cid : String) (kvs : List (String × Json)) : List Channel :=
  phoneKeys.flatMap (phoneEmit cid kvs)

/-- Lines 70-219: the dict case of `cook`.  Dispatch on the `type` string;
every unmatched object falls to `flatten_json(data, scriptOp, clean_id)`
(lines 217-219). -/
def processObj (cid : String) (kvs : List (String × Json)) : List Channel :=
  if typeStr kvs = some "heart_rate" then hrChannels cid kvs
  else if typeStr kvs = some "eeg" then dataChannels cid "_eeg_" kvs
  else if typeStr kvs = some "ppg" then dataChannels cid "_ppg_" kvs
  else if typeStr kvs = some "accel" ∨ typeStr kvs = some "accelerometer" then
    dataChannels cid "_accel_" kvs
  else if typeStr kvs = some "gyro" then dataChannels cid "_gyro_" kvs
  else if typeStr kvs = some "phone_sensors" then phoneChannels cid kvs
  else flatten_json (Json.obj kvs) cid

/-- Lines 61-235: processing of one device entry.  The device id is cleaned
(line 63); a JSON dict goes through the type dispatch; a JSON number -- and
a JSON bool, since `isinstance(True, (int, float))` holds -- yields the
single `value` channel (lines 222-224); any other decoded JSON value
(string, array, null) matches neither `isinstance` test and yields nothing;
a float-parseable non-JSON payload yields the `value` channel (lines
228-231); anything else yields the zero `value` channel (lines 232-235). -/
def processDevice (rawId : String) (p : ParseOutcome) : List Channel :=
  let cid := cleanId rawId
  match p with
  | ParseOutcome.json (Json.obj kvs) => processObj cid kvs
  | ParseOutcome.json (Json.num q) => [(cid ++ "_value", Json.num q)]
  | ParseOutcome.json (Json.bool b) => [(cid ++ "_value", Json.bool b)]
  | ParseOutcome.json _ => []
  | ParseOutcome.float q => [(cid ++ "_value", Json.num q)]
  | ParseOutcome.raw => [(cid ++ "_value", Json.num 0)]

/-- Line 55: `device_data[device_id] = data_str` -- Python dict assignment:
overwrite in place when the key exists, append otherwise. -/
def dictInsert (k : String) (v : α) : List (String × α) → List (String × α)
  | [] => [(k, v)]
  | (k2, v2) :: rest =>
    if k2 = k then (k2, v) :: rest else (k2, v2) :: dictInsert k v rest

/-- Lines 41-55: fold the valid rows into `device_data`, keyed by the raw
device id, last payload winning. -/
def deviceData (rows : List (String × ParseOutcome)) : List (String × ParseOutcome) :=
  rows.foldl (fun d r => dictInsert r.1 r.2 d) []

/-- Lines 38-235: one frame of `cook`, given the valid rows already reduced
to (raw device id, parse outcome) pairs.  (The host lookup, the header row,
the skipping of rows shorter than 4 fields and the quote stripping of the
payload string all happen before this point in the source.) -/
def cook (rows : List (String × ParseOutcome)) : List Channel :=
  (deviceData rows).flatMap (fun r => processDevice r.1 r.2)

/-- `isinstance(e, dict)` for JSON values. -/
def isObj : Json → Bool
  | Json.obj _ => true
  | _ => false

/-- Values the `flatten_json` chain ignores entirely: strings and null. -/
def isStrOrNull : Json → Bool
  | Json.str _ => true
  | Json.null => true
  | _ => false

/-- JSON object all of whose values are numbers, from a rational
association list (used to state claims about flattening). -/
def numObj (l : List (String × ℚ)) : Json :=
  Json.obj (l.map (fun kq => (kq.1, Json.num kq.2)))

/-! ### String helper lemmas -/

theorem sapp_left_cancel {s a b : String} (h : s ++ a = s ++ b) : a = b := by
  have hd := congrArg String.data h
  rw [String.data_append, String.data_append] at hd
  exact String.ext (List.append_cancel_left hd)

theorem sapp_ne_empty (s t : String) (ht : t ≠ "") : s ++ t ≠ "" := by
  intro h
  apply ht
  have hd := congrArg String.data h
  rw [String.data_append] at hd
  exact String.ext ((List.append_eq_nil.mp hd).2)

theorem clean_idem_list (l : List Char) :
    (((l.filter (fun c => c ≠ '"')).map (fun c => if c = ' ' then '_' else c)).filter
        (fun c => c ≠ '"')).map (fun c => if c = ' ' then '_' else c) =
      (l.filter (fun c => c ≠ '"')).map (fun c => if c = ' ' then '_' else c) := by
  induction l with
  | nil => rfl
  | cons c rest ih =>
    by_cases hq : c = '"'
    · simp only [List.filter_cons, hq]
      simpa using ih
    · by_cases hs : c = ' ' <;>
        simp_all [List.filter_cons, hq, hs]

/-! ### C9 -/

/-- Claim C9: device id normalization is idempotent -- applying the
line 63 cleaning (strip double quotes, replace spaces by underscores)
twice equals applying it once; and both "My Device" and "My_Device"
normalize to "My_Device". -/
theorem claim_c9 :
    (∀ s : String, cleanId (cleanId s) = cleanId s) ∧
      cleanId "My Device" = "My_Device" ∧ cleanId "My_Device" = "My_Device" := by
  refine ⟨fun s => ?_, rfl, rfl⟩
  exact congrArg String.mk (clean_idem_list s.data)

/-! ### C8 and C10: non-object payloads -/

/-- Claim C8: a payload string that is neither valid JSON nor parseable as
a float (`ParseOutcome.raw`, the fall-through of lines 226-235) produces
exactly one zero-valued channel named after the cleaned device id plus
`_value`.  The embedding is a total function, so no exception escapes. -/
theorem claim_c8 (rawId : String) :
    processDevice rawId ParseOutcome.raw = [(cleanId rawId ++ "_value", Json.num 0)] := rfl

/-- Claim C10: a payload that decodes to a JSON array matches neither
`isinstance(data, dict)` nor `isinstance(data, (int, float))` in
lines 70-224 and hits no fallback, so no channel at all is emitted. -/
theorem claim_c10 (rawId : String) (es : List Json) :
    processDevice rawId (ParseOutcome.json (Json.arr es)) = [] := rfl

/-! ### C7: heart_rate packets -/

/-- Claim C7: a `heart_rate` packet with a numeric `bpm` and an
`rr_intervals` list of length at least four produces exactly the `bpm`
channel and `rr_0`..`rr_3` taken from the first four entries; entries
beyond index 3 (the tail `rest`) are ignored. -/
theorem claim_c7 (cid : String) (kvs : List (String × Json)) (b : ℚ)
    (a0 a1 a2 a3 : Json) (rest : List Json)
    (ht : typeStr kvs = some "heart_rate")
    (hb : List.lookup "bpm" kvs = some (Json.num b))
    (hrr : List.lookup "rr_intervals" kvs =
      some (Json.arr (a0 :: a1 :: a2 :: a3 :: rest))) :
    processObj cid kvs =
      [(cid ++ "_bpm", Json.num b), (cid ++ "_rr_0", a0), (cid ++ "_rr_1", a1),
       (cid ++ "_rr_2", a2), (cid ++ "_rr_3", a3)] := by
  have h0 : cid ++ "_rr_" ++ toString (0 : Nat) = cid ++ "_rr_0" := by
    rw [String.append_assoc]; rfl
  have h1 : cid ++ "_rr_" ++ toString (1 : Nat) = cid ++ "_rr_1" := by
    rw [String.append_assoc]; rfl
  have h2 : cid ++ "_rr_" ++ toString (2 : Nat) = cid ++ "_rr_2" := by
    rw [String.append_assoc]; rfl
  have h3 : cid ++ "_rr_" ++ toString (3 : Nat) = cid ++ "_rr_3" := by
    rw [String.append_assoc]; rfl
  simp [processObj, ht, hrChannels, hb, hrr, rrChans, List.take_succ_cons,
    h0, h1, h2, h3]

/-- Witness for C7 at a concrete packet with five rr entries. -/
theorem claim_c7_witness :
    typeStr [("type", Json.str "heart_rate"), ("bpm", Json.num 72),
        ("rr_intervals", Json.arr [Json.num 800, Json.num 810, Json.num 790,
          Json.num 805, Json.num 999])] = some "heart_rate" ∧
      List.lookup "bpm" [("type", Json.str "heart_rate"), ("bpm", Json.num 72),
        ("rr_intervals", Json.arr [Json.num 800, Json.num 810, Json.num 790,
          Json.num 805, Json.num 999])] = some (Json.num 72) ∧
      processObj "d" [("type", Json.str "heart_rate"), ("bpm", Json.num 72),
        ("rr_intervals", Json.arr [Json.num 800, Json.num 810, Json.num 790,
          Json.num 805, Json.num 999])] =
        [("d_bpm", Json.num 72), ("d_rr_0", Json.num 800), ("d_rr_1", Json.num 810),
         ("d_rr_2", Json.num 790), ("d_rr_3", Json.num 805)] :=
  ⟨rfl, rfl,
    claim_c7 "d" _ 72 (Json.num 800) (Json.num 810) (Json.num 790) (Json.num 805)
      [Json.num 999] rfl rfl rfl⟩

/-! ### C4: what generic flattening ignores -/

/-- Counterexample to claim C4 as stated: `isinstance(True, int)` holds in
Python, so a boolean value does produce a channel -- flattening the object
mapping key a to true emits the channel named d_a. -/
theorem claim_c4_counterexample :
    flatten_json (Json.obj [("a", Json.bool true)]) "d" = [("d_a", Json.bool true)] := by
  simp [flatten_json, flattenEntries, newKey]

/-- Claim C4 (amended): in generic recursive flattening, strings and null
never produce a channel -- removing every top-level entry whose value is a
string or null leaves the output of `flatten_json` unchanged.  Booleans,
however, do produce channels (see the counterexample): Python bools pass
the `isinstance(value, (int, float))` test on line 245. -/
theorem claim_c4 (pfx : String) (kvs : List (String × Json)) :
    flatten_json (Json.obj (kvs.filter (fun kv => !isStrOrNull kv.2))) pfx =
      flatten_json (Json.obj kvs) pfx := by
  simp only [flatten_json]
  induction kvs with
  | nil => rfl
  | cons kv rest ih =>
    obtain ⟨k, v⟩ := kv
    cases v with
    | num q =>
      rw [List.filter_cons_of_pos (by rfl)]
      simp [flattenEntries, ih]
    | str s =>
      rw [List.filter_cons_of_neg (by simp [isStrOrNull])]
      simp [flattenEntries, ih]
    | bool b =>
      rw [List.filter_cons_of_pos (by rfl)]
      simp [flattenEntries, ih]
    | null =>
      rw [List.filter_cons_of_neg (by simp [isStrOrNull])]
      simp [flattenEntries, ih]
    | arr es =>
      rw [List.filter_cons_of_pos (by rfl)]
      simp [flattenEntries, ih]
    | obj kvs2 =>
      rw [List.filter_cons_of_pos (by rfl)]
      simp [flattenEntries, ih]

/-! ### C1: objects with a samples array -/

/-- In the list branch of `flatten_json`, array elements that are dicts are
not numbers, so they emit nothing (line 252 only accepts
`isinstance(item, (int, float))`). -/
theorem arrChannels_of_obj (nk : String) :
    ∀ (i : Nat) (l : List Json), (∀ e ∈ l, isObj e = true) → arrChannels nk i l = [] := by
  intro i l
  induction l generalizing i with
  | nil => intro _; rfl
  | cons e rest ih =>
    intro h
    have he := h e (List.mem_cons_self e rest)
    have hrest : ∀ e ∈ rest, isObj e = true := fun x hx => h x (List.mem_cons_of_mem e hx)
    cases e <;> simp_all [arrChannels, isObj, ih]

/-- Counterexample to claim C1 as stated: the code has no `samples`
handling at all.  A batch object holding two `eeg` packets has no `type`
key, so it falls to generic flattening, whose list branch skips dict
elements -- the result is no channels at all, not a merge of the two
packets (in particular not the value of the later packet for key a). -/
theorem claim_c1_counterexample :
    processDevice "d" (ParseOutcome.json (Json.obj
      [("samples", Json.arr
        [Json.obj [("type", Json.str "eeg"), ("data", Json.obj [("a", Json.num 1)])],
         Json.obj [("type", Json.str "eeg"),
           ("data", Json.obj [("a", Json.num 2), ("b", Json.num 3)])]])])) = [] ∧
    ("d_eeg_a", Json.num 2) ∉
      processDevice "d" (ParseOutcome.json (Json.obj
        [("samples", Json.arr
          [Json.obj [("type", Json.str "eeg"), ("data", Json.obj [("a", Json.num 1)])],
           Json.obj [("type", Json.str "eeg"),
             ("data", Json.obj [("a", Json.num 2), ("b", Json.num 3)])]])])) := by
  constructor
  · simp [processDevice, processObj, typeStr, List.lookup, flatten_json,
      flattenEntries, arrChannels, newKey]
  · simp [processDevice, processObj, typeStr, List.lookup, flatten_json,
      flattenEntries, arrChannels, newKey]

/-- Claim C1 (amended): an object whose only key is a `samples` array of
packet objects is not treated as a batch: it reaches the generic flattening
fallback, which ignores every dict element of the array, so no channels are
produced from the samples at all. -/
theorem claim_c1 (cid : String) (ps : List Json) (h : ∀ e ∈ ps, isObj e = true) :
    processObj cid [("samples", Json.arr ps)] = [] := by
  have harr := arrChannels_of_obj (newKey cid "samples") 0 ps h
  simp [processObj, typeStr, List.lookup, flatten_json, flattenEntries, harr]

/-- Witness for C1: a batch of two packet objects yields no channels. -/
theorem claim_c1_witness :
    (∀ e ∈ [Json.obj [("type", Json.str "eeg")], Json.obj []], isObj e = true) ∧
      processObj "d" [("samples",
        Json.arr [Json.obj [("type", Json.str "eeg")], Json.obj []])] = [] :=
  ⟨by decide, claim_c1 "d" _ (by decide)⟩

/-! ### C5: unrecognized types fall through, but may emit nothing -/

/-- Counterexample to claim C5 as stated: the empty JSON object decodes
fine, falls through to generic flattening, and produces no channel. -/
theorem claim_c5_counterexample :
    processDevice "d" (ParseOutcome.json (Json.obj [])) = [] := by
  simp [processDevice, processObj, typeStr, flatten_json, flattenEntries]

/-- Claim C5 (amended): an unrecognized packet type is indeed not an error
and falls through to generic flattening (lines 217-219), but flattening
does not guarantee output -- an object with no numeric content (for
example the empty object of the counterexample) yields no channels. -/
theorem claim_c5 (cid : String) (kvs : List (String × Json))
    (h : typeStr kvs ∉ [some "heart_rate", some "eeg", some "ppg", some "accel",
      some "accelerometer", some "gyro", some "phone_sensors"]) :
    processObj cid kvs = flatten_json (Json.obj kvs) cid := by
  simp only [List.mem_cons, List.not_mem_nil, or_false] at h
  push_neg at h
  obtain ⟨h1, h2, h3, h4, h5, h6, h7⟩ := h
  simp [processObj, h1, h2, h3, h4, h5, h6, h7]

/-- Witness for C5: a packet with an unrecognized type string. -/
theorem claim_c5_witness :
    typeStr [("type", Json.str "imu"), ("x", Json.num 1)] ∉
        [some "heart_rate", some "eeg", some "ppg", some "accel",
         some "accelerometer", some "gyro", some "phone_sensors"] ∧
      processObj "d" [("type", Json.str "imu"), ("x", Json.num 1)] =
        flatten_json (Json.obj [("type", Json.str "imu"), ("x", Json.num 1)]) "d" :=
  ⟨by decide, claim_c5 "d" _ (by decide)⟩

/-! ### C2: imu packets -/

/-- Flattening an all-numeric object under a non-empty prefix emits one
channel per entry, named prefix underscore key. -/
theorem flattenEntries_numObj (nk : String) (h : nk ≠ "") (A : List (String × ℚ)) :
    flattenEntries (A.map (fun kq => (kq.1, Json.num kq.2))) nk =
      A.map (fun kq => (nk ++ "_" ++ kq.1, Json.num kq.2)) := by
  induction A with
  | nil => simp [flattenEntries]
  | cons kq rest ih => simp [flattenEntries, newKey, h, ih]

/-- Counterexample to claim C2 as stated: there is no `imu` branch in the
dispatch of lines 74-215, so an `imu` packet falls to generic flattening
and the emitted channels are named `data_accel_x` and `data_gyro_y`, not
`accel_x` -- no channel named d_accel_x exists. -/
theorem claim_c2_counterexample :
    processDevice "d" (ParseOutcome.json (Json.obj
      [("type", Json.str "imu"),
       ("data", Json.obj [("accel", Json.obj [("x", Json.num 1)]),
                          ("gyro", Json.obj [("y", Json.num 2)])])])) =
      [("d_data_accel_x", Json.num 1), ("d_data_gyro_y", Json.num 2)] ∧
    "d_accel_x" ∉
      (processDevice "d" (ParseOutcome.json (Json.obj
        [("type", Json.str "imu"),
         ("data", Json.obj [("accel", Json.obj [("x", Json.num 1)]),
                            ("gyro", Json.obj [("y", Json.num 2)])])]))).map Prod.fst := by
  constructor
  · simp [processDevice, processObj, typeStr, List.lookup, flatten_json,
      flattenEntries, newKey]
    decide
  · simp [processDevice, processObj, typeStr, List.lookup, flatten_json,
      flattenEntries, newKey]
    decide

/-- Claim C2 (amended): an `imu` packet is handled by the generic
flattening fallback, not by a dedicated branch: for every packet of type
`imu` whose `data` object holds an `accel` object and a `gyro` object of
numeric axes, the emitted channels are `data_accel_` axis and `data_gyro_`
axis under the cleaned device prefix (one per axis, accel first), not
`accel_` axis and `gyro_` axis. -/
theorem claim_c2 (cid : String) (hcid : cid ≠ "") (A G : List (String × ℚ)) :
    processObj cid [("type", Json.str "imu"),
        ("data", Json.obj [("accel", numObj A), ("gyro", numObj G)])] =
      A.map (fun kq => (cid ++ "_data_accel_" ++ kq.1, Json.num kq.2)) ++
        G.map (fun kq => (cid ++ "_data_gyro_" ++ kq.1, Json.num kq.2)) := by
  have hd : newKey cid "data" = cid ++ "_" ++ "data" := if_neg hcid
  have hne : cid ++ "_" ++ "data" ≠ "" := sapp_ne_empty _ _ (by decide)
  have hneA : cid ++ "_" ++ "data" ++ "_" ++ "accel" ≠ "" := sapp_ne_empty _ _ (by decide)
  have hneG : cid ++ "_" ++ "data" ++ "_" ++ "gyro" ≠ "" := sapp_ne_empty _ _ (by decide)
  have hacc : ∀ k : String,
      cid ++ "_" ++ "data" ++ "_" ++ "accel" ++ "_" ++ k = cid ++ "_data_accel_" ++ k := by
    intro k
    rw [String.append_assoc cid, String.append_assoc cid, String.append_assoc cid,
      String.append_assoc cid]
    rfl
  have hgyr : ∀ k : String,
      cid ++ "_" ++ "data" ++ "_" ++ "gyro" ++ "_" ++ k = cid ++ "_data_gyro_" ++ k := by
    intro k
    rw [String.append_assoc cid, String.append_assoc cid, String.append_assoc cid,
      String.append_assoc cid]
    rfl
  simp [processObj, typeStr, List.lookup, flatten_json, flattenEntries, numObj,
    newKey, hcid, hne, hneA, hneG, flattenEntries_numObj _ hneA,
    flattenEntries_numObj _ hneG, hacc, hgyr]

/-- Witness for C2 at one-axis accel and gyro objects. -/
theorem claim_c2_witness :
    ("d" : String) ≠ "" ∧
      processObj "d" [("type", Json.str "imu"),
          ("data", Json.obj [("accel", numObj [("x", 1)]), ("gyro", numObj [("y", 2)])])] =
        [("d_data_accel_x", Json.num 1), ("d_data_gyro_y", Json.num 2)] :=
  ⟨by decide, claim_c2 "d" (by decide) [("x", 1)] [("y", 2)]⟩

/-! ### Phone sensor helper lemmas -/

theorem chanName_inj (cid : String) : Function.Injective (fun k => cid ++ "_" ++ k) := by
  intro a b h
  exact sapp_left_cancel h

theorem phoneKeys_nodup : phoneKeys.Nodup := by decide

/-- Each catalogue key contributes its channel name or nothing, in
catalogue order, so the emitted names form a sublist of the full name
catalogue. -/
theorem phone_names_sublist (cid : String) (kvs : List (String × Json)) :
    ∀ ks : List String, ((ks.flatMap (phoneEmit cid kvs)).map Prod.fst).Sublist
      (ks.map (fun k => cid ++ "_" ++ k)) := by
  intro ks
  induction ks with
  | nil => simp
  | cons k rest ih =>
    simp only [List.flatMap_cons, List.map_cons, List.map_append]
    have hemit : phoneEmit cid kvs k = [] ∨
        phoneEmit cid kvs k = [(cid ++ "_" ++ k, (List.lookup k kvs).getD Json.null)] := by
      unfold phoneEmit
      cases hl : List.lookup k kvs with
      | none => exact Or.inl rfl
      | some v => cases v <;> simp
    rcases hemit with h | h
    · rw [h]
      simpa using ih.cons _
    · rw [h]
      simpa using ih.cons₂ (cid ++ "_" ++ k)

/-- A present, non-null catalogue key is emitted. -/
theorem phone_mem_emit {cid : String} {kvs : List (String × Json)} {k : String}
    {v : Json} {ks : List String} (hk : k ∈ ks)
    (hl : List.lookup k kvs = some v) (hv : v ≠ Json.null) :
    (cid ++ "_" ++ k, v) ∈ ks.flatMap (phoneEmit cid kvs) := by
  apply List.mem_flatMap.mpr
  refine ⟨k, hk, ?_⟩
  unfold phoneEmit
  rw [hl]
  cases v <;> simp_all

/-- Every emitted phone channel name comes from a catalogue key that is
present with a non-null value. -/
theorem phone_names_mem {cid : String} {kvs : List (String × Json)} {name : String}
    {ks : List String} (h : name ∈ (ks.flatMap (phoneEmit cid kvs)).map Prod.fst) :
    ∃ k, k ∈ ks ∧ name = cid ++ "_" ++ k ∧
      ∃ v, List.lookup k kvs = some v ∧ v ≠ Json.null := by
  obtain ⟨ch, hch, hname⟩ := List.mem_map.mp h
  obtain ⟨k, hk, hemit⟩ := List.mem_flatMap.mp hch
  refine ⟨k, hk, ?_⟩
  revert hemit
  unfold phoneEmit
  cases hl : List.lookup k kvs with
  | none => intro hemit; exact absurd hemit (List.not_mem_nil ch)
  | some v =>
    cases v <;> intro hemit <;> simp_all

/-! ### C3: phone_sensors fields are gated per key, not per group -/

/-- Counterexample to claim C3 as stated: lines 109-215 test every
catalogue key individually, so a packet holding `accel_y` but not
`accel_x` does emit the accelerometer channel `accel_y`. -/
theorem claim_c3_counterexample :
    processDevice "d" (ParseOutcome.json (Json.obj
      [("type", Json.str "phone_sensors"), ("accel_y", Json.num 5)])) =
      [("d_accel_y", Json.num 5)] := rfl

/-- Claim C3 (amended): in a `phone_sensors` packet every catalogue field
is gated individually by its own `data.get(key) is not None` test, with no
group gating: a packet with `accel_y` present (non-null) and `accel_x`
absent emits the `accel_y` channel and no `accel_x` channel. -/
theorem claim_c3 (cid : String) (kvs : List (String × Json)) (q : ℚ)
    (ht : typeStr kvs = some "phone_sensors")
    (hx : List.lookup "accel_x" kvs = none)
    (hy : List.lookup "accel_y" kvs = some (Json.num q)) :
    (cid ++ "_accel_y", Json.num q) ∈ processObj cid kvs ∧
      cid ++ "_accel_x" ∉ (processObj cid kvs).map Prod.fst := by
  have hdisp : processObj cid kvs = phoneChannels cid kvs := by
    simp [processObj, ht]
  have hay : cid ++ "_" ++ "accel_y" = cid ++ "_accel_y" := by
    rw [String.append_assoc]; rfl
  have hax : cid ++ "_" ++ "accel_x" = cid ++ "_accel_x" := by
    rw [String.append_assoc]; rfl
  rw [hdisp, phoneChannels]
  constructor
  · rw [← hay]
    exact phone_mem_emit (by decide : "accel_y" ∈ phoneKeys) hy (by intro h; cases h)
  · intro hmem
    obtain ⟨k, hk, hname, v, hl, hv⟩ := phone_names_mem hmem
    have h1 : cid ++ "_" ++ "accel_x" = cid ++ "_" ++ k := hax.trans hname
    have hk2 : k = "accel_x" := (sapp_left_cancel h1).symm
    rw [hk2] at hl
    rw [hx] at hl
    cases hl

/-- Witness for C3 at a packet holding only `accel_y`. -/
theorem claim_c3_witness :
    typeStr [("type", Json.str "phone_sensors"), ("accel_y", Json.num 5)] =
        some "phone_sensors" ∧
      List.lookup "accel_x" [("type", Json.str "phone_sensors"),
        ("accel_y", Json.num 5)] = none ∧
      ("d_accel_y", Json.num 5) ∈
        processObj "d" [("type", Json.str "phone_sensors"), ("accel_y", Json.num 5)] ∧
      "d_accel_x" ∉ (processObj "d" [("type", Json.str "phone_sensors"),
        ("accel_y", Json.num 5)]).map Prod.fst :=
  ⟨rfl, rfl,
    (claim_c3 "d" [("type", Json.str "phone_sensors"), ("accel_y", Json.num 5)]
      5 rfl rfl rfl).1,
    (claim_c3 "d" [("type", Json.str "phone_sensors"), ("accel_y", Json.num 5)]
      5 rfl rfl rfl).2⟩

/-! ### C6: uniqueness of channel names -/

/-- Counterexample to claim C6 as stated: the raw ids "a b" and "a_b" are
distinct keys of `device_data`, but both clean to a_b, so one frame emits
the channel name a_b_value twice. -/
theorem claim_c6_counterexample :
    ¬ ((cook [("a b", ParseOutcome.raw), ("a_b", ParseOutcome.raw)]).map
        Prod.fst).Nodup := by decide

/-- Claim C6 (amended): the channels emitted for a single `phone_sensors`
packet have pairwise distinct names (the emitted names are a sublist of
the 29 distinct catalogue names); frame-wide uniqueness fails when two raw
device ids normalize to the same cleaned id (see the counterexample). -/
theorem claim_c6 (cid : String) (kvs : List (String × Json))
    (ht : typeStr kvs = some "phone_sensors") :
    ((processObj cid kvs).map Prod.fst).Nodup := by
  have hdisp : processObj cid kvs = phoneChannels cid kvs := by
    simp [processObj, ht]
  rw [hdisp, phoneChannels]
  exact List.Nodup.sublist (phone_names_sublist cid kvs phoneKeys)
    (phoneKeys_nodup.map (chanName_inj cid))

/-- Witness for C6 at a packet holding two sensor fields. -/
theorem claim_c6_witness :
    typeStr [("type", Json.str "phone_sensors"), ("accel_y", Json.num 5),
        ("pitch", Json.num 1)] = some "phone_sensors" ∧
      ((processObj "d" [("type", Json.str "phone_sensors"), ("accel_y", Json.num 5),
        ("pitch", Json.num 1)]).map Prod.fst).Nodup :=
  ⟨rfl, claim_c6 "d" [("type", Json.str "phone_sensors"), ("accel_y", Json.num 5),
      ("pitch", Json.num 1)] rfl⟩

end SerialBridge
